import Mathlib

/-
Verification of the BendulumClock repository's calibration-engine behavior.

The development shallowly embeds the sketches of the repository:
  - the BendulumClock sketch (button handlers of the adjustment ledger and
    the run-mode switching they perform),
  - the Escapement sketch (whose control loop contains the explicit
    writeEEPROM calls),
  - the RTC-calibration sketch (whose loop applies the bias-correction
    formula to elapsed time, in C unsigned 32-bit arithmetic),
  - the two EEPROM-dump sketches (least-squares regression over the
    temperature-bucket table, embedded over the rationals).

Machine integers are embedded as Nat/Int with explicit reduction modulo
2^32 where C promotion or overflow matters.  Library code that is not part
of the repository sources (the Escapement/Bendulum libraries) is modelled
from the specification where a claim depends on it; each such definition
says so in its doc comment.
-/

/- Drive commands accepted by the Clock collaborator (the Lavet-motor
   actuator): a signed microsecond advance, a signed whole-second advance,
   and a cancellation request. -/
inductive DriveCmd where
| driveMicros (n : Int)
| driveSec (n : Int)
| cancelDrive
deriving DecidableEq

/- The nine resolved user intents: one per button of the SparkFun remote. -/
inductive Button where
| power
| a
| b
| c
| up
| down
| left
| right
| select
deriving DecidableEq

/- The adjustment step table shared verbatim by all three interactive
   sketches: step sizes in tenths of a second. -/
def stepSize : List Int := [1, 10, 100, 600, 6000, 36000]

/- Array read stepSize[i]; out-of-range reads never occur on the reachable
   step indices 0..5. -/
def stepSizeAt (i : Nat) : Int := stepSize.getD i 0

namespace BendulumClock

/- Run modes of the Escapement library that the BendulumClock sketch
   mentions (COLDSTART, WARMSTART, CALIBRATE, CALFINISH, RUN, CALRTC). -/
inductive RunMode where
| COLDSTART
| WARMSTART
| CALIBRATE
| CALFINISH
| RUN
| CALRTC
deriving DecidableEq

/-- Modelled from the spec: the Persisted Settings record owned by the
Escapement library (the library is not under src/).  Only the two fields a
ledger commit can target are modelled: the RTC bias and the beat-duration
correction, both in tenths of a second per day. -/
structure EscSettings where
  rtcBias : Int
  beatDelta : Int
deriving DecidableEq

/- State of the BendulumClock sketch: its global variables (stepix,
   adjustable, adjRTC, speedAdj) plus the Escapement-owned fields the
   handlers read and write (run mode, bias, beatDelta) and the persisted
   copy of the settings. -/
structure State where
  stepix : Nat
  adjustable : Bool
  adjRTC : Bool
  speedAdj : Int
  runMode : RunMode
  bias : Int
  beatDelta : Int
  persisted : EscSettings
deriving DecidableEq

/-- Modelled from the spec: the Escapement library method incrBias (not
under src/) adds the committed amount to the RTC-bias field and saves the
settings. -/
def incrBias (s : State) (x : Int) : State :=
  { s with bias := s.bias + x
           persisted := { rtcBias := s.bias + x, beatDelta := s.beatDelta } }

/-- Modelled from the spec: the Escapement library method incrBeatDelta
(not under src/) adds the committed amount to the beat-duration correction
and saves the settings. -/
def incrBeatDelta (s : State) (x : Int) : State :=
  { s with beatDelta := s.beatDelta + x
           persisted := { rtcBias := s.bias, beatDelta := s.beatDelta + x } }

/- Power button: flip adjustable; if going off, post any pending
   adjustment to the field selected by adjRTC (BendulumClock.ino fPower). -/
def fPower (s : State) : State × List DriveCmd :=
  if s.adjustable then
    let s1 :=
      if s.speedAdj ≠ 0 then
        let s2 := if s.adjRTC then incrBias s s.speedAdj else incrBeatDelta s s.speedAdj
        { s2 with speedAdj := 0 }
      else s
    ({ s1 with adjustable := false }, [])
  else
    ({ s with adjustable := true }, [])

/- A button: decrement the step index, byte arithmetic (BendulumClock.ino
   fA): stepix is a byte, so decrementing 0 wraps to 255 which the guard
   folds to 5. -/
def fA (s : State) : State × List DriveCmd :=
  if s.adjustable then
    let d := (s.stepix + 255) % 256
    ({ s with stepix := if 5 < d then 5 else d }, [])
  else (s, [])

/- B button: cancel adjustments (BendulumClock.ino fB).  Requests drive
   cancellation; in RTC-calibration mode with nothing pending it instead
   leaves CALRTC for RUN, otherwise it zeroes the pending adjustment. -/
def fB (s : State) : State × List DriveCmd :=
  if s.adjustable then
    if s.adjRTC = true ∧ s.speedAdj = 0 then
      ({ s with adjRTC := false, runMode := RunMode.RUN }, [DriveCmd.cancelDrive])
    else
      ({ s with speedAdj := 0 }, [DriveCmd.cancelDrive])
  else (s, [])

/- C button: increment the step index, byte arithmetic (BendulumClock.ino
   fC): incrementing past 5 wraps to 0. -/
def fC (s : State) : State × List DriveCmd :=
  if s.adjustable then
    let u := (s.stepix + 1) % 256
    ({ s with stepix := if 5 < u then 0 else u }, [])
  else (s, [])

/- Up button: add the current step size to the pending adjustment
   (BendulumClock.ino fUp). -/
def fUp (s : State) : State × List DriveCmd :=
  if s.adjustable then
    ({ s with speedAdj := s.speedAdj + stepSizeAt s.stepix }, [])
  else (s, [])

/- Down button: subtract the current step size from the pending adjustment
   (BendulumClock.ino fDown). -/
def fDown (s : State) : State × List DriveCmd :=
  if s.adjustable then
    ({ s with speedAdj := s.speedAdj - stepSizeAt s.stepix }, [])
  else (s, [])

/- Left button: pause the display by the step size (BendulumClock.ino
   fLeft).  Small steps go out in microseconds, the one large step in
   whole seconds; C division truncates toward zero (Int.tdiv). -/
def fLeft (s : State) : State × List DriveCmd :=
  if s.adjustable then
    if stepSizeAt s.stepix ≤ 21474 then
      (s, [DriveCmd.driveMicros (-stepSizeAt s.stepix * 100000)])
    else
      (s, [DriveCmd.driveSec ((-stepSizeAt s.stepix).tdiv 10)])
  else (s, [])

/- Right button: fast-forward the display by the step size
   (BendulumClock.ino fRight). -/
def fRight (s : State) : State × List DriveCmd :=
  if s.adjustable then
    if stepSizeAt s.stepix ≤ 21474 then
      (s, [DriveCmd.driveMicros (stepSizeAt s.stepix * 100000)])
    else
      (s, [DriveCmd.driveSec ((stepSizeAt s.stepix).tdiv 10)])
  else (s, [])

/- Select button: toggle between RTC calibration and a fresh warm-start
   beat calibration; in either case zero the ledger and disarm
   (BendulumClock.ino fSelect). -/
def fSelect (s : State) : State × List DriveCmd :=
  if s.adjustable then
    if s.adjRTC then
      ({ s with adjRTC := false, runMode := RunMode.WARMSTART,
                speedAdj := 0, adjustable := false }, [])
    else
      ({ s with adjRTC := true, runMode := RunMode.CALRTC,
                speedAdj := 0, adjustable := false }, [])
  else (s, [])

/- Dispatch of a resolved button intent to its handler, as the code/
   function-pointer parallel arrays do in loop(). -/
def onButton (s : State) : Button → State × List DriveCmd
| Button.power => fPower s
| Button.a => fA s
| Button.b => fB s
| Button.c => fC s
| Button.up => fUp s
| Button.down => fDown s
| Button.left => fLeft s
| Button.right => fRight s
| Button.select => fSelect s

/- Initial values of the sketch globals (stepix = 3, adjustable = false,
   adjRTC = false, speedAdj = 0); run mode and calibration data are loaded
   from the Escapement library at startup and arrive as parameters. -/
def initState (m : RunMode) (bias beatDelta : Int) (p : EscSettings) : State :=
  { stepix := 3, adjustable := false, adjRTC := false, speedAdj := 0,
    runMode := m, bias := bias, beatDelta := beatDelta, persisted := p }

/- The invariant of claim C10: outside the armed window no adjustment is
   pending. -/
def SpeedAdjInv (s : State) : Prop := s.adjustable = false → s.speedAdj = 0

end BendulumClock

namespace BendulumClock

/-- Claim C9: incrementStep (fC) and decrementStep (fA) move stepix
circularly over 0..5 — incrementing from 5 yields 0, decrementing from 0
yields 5, otherwise they change stepix by exactly one — both are no-ops
when adjustable is false, and stepix stays within 0..5. -/
theorem C9_step_index_circular (s : State) :
    (s.adjustable = true → s.stepix ≤ 5 →
      (fC s).1 = { s with stepix := if s.stepix = 5 then 0 else s.stepix + 1 } ∧
      (fA s).1 = { s with stepix := if s.stepix = 0 then 5 else s.stepix - 1 } ∧
      (fC s).1.stepix ≤ 5 ∧ (fA s).1.stepix ≤ 5 ∧
      (fC s).2 = [] ∧ (fA s).2 = []) ∧
    (s.adjustable = false → fA s = (s, []) ∧ fC s = (s, [])) := by
  obtain ⟨ix, adj, artc, sp, rm, bi, bd, ps⟩ := s
  constructor
  · intro hadj hix
    subst hadj
    simp only [fA, fC, if_true]
    interval_cases ix <;> simp [fA, fC]
  · intro hadj
    subst hadj
    simp [fA, fC]

theorem C9_witness :
    (fC (initState RunMode.RUN 0 0 ⟨0, 0⟩) = (initState RunMode.RUN 0 0 ⟨0, 0⟩, []) ∧
     fA (initState RunMode.RUN 0 0 ⟨0, 0⟩) = (initState RunMode.RUN 0 0 ⟨0, 0⟩, [])) ∧
    (fC { initState RunMode.RUN 0 0 ⟨0, 0⟩ with adjustable := true, stepix := 5 }).1.stepix = 0 := by
  have h1 := (C9_step_index_circular (initState RunMode.RUN 0 0 ⟨0, 0⟩)).2 rfl
  have h2 := (C9_step_index_circular
    { initState RunMode.RUN 0 0 ⟨0, 0⟩ with adjustable := true, stepix := 5 }).1 rfl (by decide)
  exact ⟨⟨h1.2, h1.1⟩, by rw [h2.1]; rfl⟩

/-- Claim C10: the invariant that adjustable = false implies speedAdj = 0
holds in the initial state of the sketch and is preserved by every button
handler: the only handlers that disarm (fPower turning off and fSelect)
zero speedAdj in the same step, and speedAdj is modified only while
adjustable is true. -/
theorem C10_disarmed_has_no_pending :
    (∀ m bias beatDelta p, SpeedAdjInv (initState m bias beatDelta p)) ∧
    (∀ s btn, SpeedAdjInv s → SpeedAdjInv (onButton s btn).1) := by
  constructor
  · intro m bias beatDelta p
    intro _
    rfl
  · intro s btn h
    cases btn <;>
      simp only [onButton, fPower, fA, fB, fC, fUp, fDown, fLeft, fRight, fSelect,
        SpeedAdjInv] at h ⊢ <;>
      split_ifs <;> simp_all [SpeedAdjInv]

/-- Claim C2: when fPower turns adjustment off with a pending adjustment,
it adds the pending amount to exactly the field selected by adjRTC (the
RTC bias when RTC calibration is targeted, the beat-duration correction
otherwise), persists the settings, and zeroes the pending adjustment,
leaving the other field untouched; turning adjustment on only arms the
ledger. -/
theorem C2_toggleAdjustable_commit (s : State) :
    (s.adjustable = true → s.speedAdj ≠ 0 → s.adjRTC = true →
      fPower s = ({ s with bias := s.bias + s.speedAdj,
                           persisted := { rtcBias := s.bias + s.speedAdj,
                                          beatDelta := s.beatDelta },
                           speedAdj := 0, adjustable := false }, [])) ∧
    (s.adjustable = true → s.speedAdj ≠ 0 → s.adjRTC = false →
      fPower s = ({ s with beatDelta := s.beatDelta + s.speedAdj,
                           persisted := { rtcBias := s.bias,
                                          beatDelta := s.beatDelta + s.speedAdj },
                           speedAdj := 0, adjustable := false }, [])) ∧
    (s.adjustable = false → fPower s = ({ s with adjustable := true }, [])) := by
  obtain ⟨ix, adj, artc, sp, rm, bi, bd, ps⟩ := s
  refine ⟨?_, ?_, ?_⟩
  · intro hadj hsp hr
    subst hadj; subst hr
    simp [fPower, incrBias, hsp]
  · intro hadj hsp hr
    subst hadj; subst hr
    simp [fPower, incrBeatDelta, hsp]
  · intro hadj
    subst hadj
    simp [fPower]

theorem C2_witness :
    fPower { stepix := 3, adjustable := true, adjRTC := true, speedAdj := 100,
             runMode := RunMode.CALRTC, bias := 7, beatDelta := 9,
             persisted := { rtcBias := 7, beatDelta := 9 } } =
      ({ stepix := 3, adjustable := false, adjRTC := true, speedAdj := 0,
         runMode := RunMode.CALRTC, bias := 107, beatDelta := 9,
         persisted := { rtcBias := 107, beatDelta := 9 } }, []) := by
  have h := (C2_toggleAdjustable_commit
    { stepix := 3, adjustable := true, adjRTC := true, speedAdj := 100,
      runMode := RunMode.CALRTC, bias := 7, beatDelta := 9,
      persisted := { rtcBias := 7, beatDelta := 9 } }).1 rfl (by decide) rfl
  simpa using h

/-- Claim C4 counterexample: the cancel intent does not leave the run mode
unchanged in every state — in CALRTC with nothing pending and the ledger
armed, fB changes the run mode from CALRTC to RUN. -/
theorem C4_cancel_changes_runMode :
    (fB { stepix := 3, adjustable := true, adjRTC := true, speedAdj := 0,
          runMode := RunMode.CALRTC, bias := 0, beatDelta := 0,
          persisted := { rtcBias := 0, beatDelta := 0 } }).1.runMode = RunMode.RUN ∧
    (fB { stepix := 3, adjustable := true, adjRTC := true, speedAdj := 0,
          runMode := RunMode.CALRTC, bias := 0, beatDelta := 0,
          persisted := { rtcBias := 0, beatDelta := 0 } }).1.runMode ≠ RunMode.CALRTC := by
  decide

/-- Claim C4 as amended: when the ledger is armed, the cancel intent (fB)
requests drive cancellation, never mutates the persisted settings, and
leaves the pending adjustment zero afterwards; the run mode is unchanged
except in RTC-calibration mode with nothing pending, where cancel leaves
CALRTC for RUN and clears the RTC target flag.  When the ledger is not
armed, cancel is a no-op. -/
theorem C4_cancel_amended (s : State) :
    (s.adjustable = true →
      (fB s).2 = [DriveCmd.cancelDrive] ∧
      (fB s).1.persisted = s.persisted ∧
      (fB s).1.speedAdj = 0 ∧
      (s.adjRTC = true ∧ s.speedAdj = 0 →
        (fB s).1.runMode = RunMode.RUN ∧ (fB s).1.adjRTC = false) ∧
      (¬(s.adjRTC = true ∧ s.speedAdj = 0) → (fB s).1.runMode = s.runMode)) ∧
    (s.adjustable = false → fB s = (s, [])) := by
  obtain ⟨ix, adj, artc, sp, rm, bi, bd, ps⟩ := s
  constructor
  · intro hadj
    subst hadj
    by_cases h : artc = true ∧ sp = 0 <;> simp [fB, h]
  · intro hadj
    subst hadj
    simp [fB]

theorem C4_witness :
    (fB { stepix := 3, adjustable := true, adjRTC := false, speedAdj := -600,
          runMode := RunMode.RUN, bias := 1, beatDelta := 2,
          persisted := { rtcBias := 1, beatDelta := 2 } }).2 = [DriveCmd.cancelDrive] ∧
    (fB { stepix := 3, adjustable := true, adjRTC := false, speedAdj := -600,
          runMode := RunMode.RUN, bias := 1, beatDelta := 2,
          persisted := { rtcBias := 1, beatDelta := 2 } }).1.speedAdj = 0 := by
  have h := (C4_cancel_amended
    { stepix := 3, adjustable := true, adjRTC := false, speedAdj := -600,
      runMode := RunMode.RUN, bias := 1, beatDelta := 2,
      persisted := { rtcBias := 1, beatDelta := 2 } }).1 rfl
  exact ⟨h.1, h.2.2.1⟩

/-- Claim C7: for every step index 0..5 the pause (fLeft) and advance
(fRight) handlers issue a microsecond drive command of minus/plus
stepSize[stepix] times 100000 exactly when stepSize[stepix] is at most
21474 tenths of a second, and otherwise a whole-second drive command of
minus/plus stepSize[stepix]/10, so the microsecond value always stays
within the signed 32-bit long range. -/
theorem C7_drive_unit_switch_no_overflow (s : State)
    (hadj : s.adjustable = true) (hix : s.stepix ≤ 5) :
    (stepSizeAt s.stepix ≤ 21474 →
      fLeft s = (s, [DriveCmd.driveMicros (-stepSizeAt s.stepix * 100000)]) ∧
      fRight s = (s, [DriveCmd.driveMicros (stepSizeAt s.stepix * 100000)]) ∧
      -(2 ^ 31) ≤ -stepSizeAt s.stepix * 100000 ∧
      stepSizeAt s.stepix * 100000 ≤ 2 ^ 31 - 1) ∧
    (21474 < stepSizeAt s.stepix →
      fLeft s = (s, [DriveCmd.driveSec ((-stepSizeAt s.stepix).tdiv 10)]) ∧
      fRight s = (s, [DriveCmd.driveSec ((stepSizeAt s.stepix).tdiv 10)])) := by
  obtain ⟨ix, adj, artc, sp, rm, bi, bd, ps⟩ := s
  subst hadj
  interval_cases ix <;>
    simp [fLeft, fRight, stepSizeAt, stepSize]

theorem C7_witness :
    fLeft { stepix := 5, adjustable := true, adjRTC := false, speedAdj := 0,
            runMode := RunMode.RUN, bias := 0, beatDelta := 0,
            persisted := { rtcBias := 0, beatDelta := 0 } } =
      ({ stepix := 5, adjustable := true, adjRTC := false, speedAdj := 0,
         runMode := RunMode.RUN, bias := 0, beatDelta := 0,
         persisted := { rtcBias := 0, beatDelta := 0 } },
       [DriveCmd.driveSec (-3600)]) := by
  have h := (C7_drive_unit_switch_no_overflow
    { stepix := 5, adjustable := true, adjRTC := false, speedAdj := 0,
      runMode := RunMode.RUN, bias := 0, beatDelta := 0,
      persisted := { rtcBias := 0, beatDelta := 0 } } rfl (by decide)).2 (by decide)
  simpa using h.1

/-- Claim C8: when adjustable is false, every button operation other than
Power — step increment and decrement, increase and decrease pending, pause
and advance display, cancel, and the calibration mode switch — leaves the
whole state unchanged, writes no settings and issues no drive command. -/
theorem C8_noop_when_disarmed (s : State) (btn : Button)
    (hadj : s.adjustable = false) (hbtn : btn ≠ Button.power) :
    onButton s btn = (s, []) := by
  cases btn <;>
    simp_all [onButton, fA, fB, fC, fUp, fDown, fLeft, fRight, fSelect]

theorem C8_witness :
    onButton { stepix := 2, adjustable := false, adjRTC := true, speedAdj := 0,
               runMode := RunMode.CALRTC, bias := 4, beatDelta := 5,
               persisted := { rtcBias := 4, beatDelta := 5 } } Button.select =
      ({ stepix := 2, adjustable := false, adjRTC := true, speedAdj := 0,
         runMode := RunMode.CALRTC, bias := 4, beatDelta := 5,
         persisted := { rtcBias := 4, beatDelta := 5 } }, []) :=
  C8_noop_when_disarmed
    { stepix := 2, adjustable := false, adjRTC := true, speedAdj := 0,
      runMode := RunMode.CALRTC, bias := 4, beatDelta := 5,
      persisted := { rtcBias := 4, beatDelta := 5 } } Button.select rfl (by decide)

theorem C10_witness :
    SpeedAdjInv (initState RunMode.COLDSTART 0 0 ⟨0, 0⟩) ∧
    SpeedAdjInv (onButton (initState RunMode.COLDSTART 0 0 ⟨0, 0⟩) Button.power).1 := by
  constructor
  · exact C10_disarmed_has_no_pending.1 RunMode.COLDSTART 0 0 ⟨0, 0⟩
  · exact C10_disarmed_has_no_pending.2 (initState RunMode.COLDSTART 0 0 ⟨0, 0⟩) Button.power
      (C10_disarmed_has_no_pending.1 RunMode.COLDSTART 0 0 ⟨0, 0⟩)

end BendulumClock

namespace EscapementSketch

/- Run modes of the Bendulum library that the Escapement sketch mentions. -/
inductive RunMode where
| SETTLING
| SCALING
| CALIBRATING
| CALFINISH
| RUNNING
deriving DecidableEq

/- The settings_t structure the Escapement sketch stores in EEPROM. -/
structure Settings where
  id : Int
  rtcCorrection : Int
  peakScale : Int
  uspb : Int
deriving DecidableEq

/- SETTINGS_TAG, the validity tag of the EEPROM record. -/
def SETTINGS_TAG : Int := 0xA020

/- State of the Escapement sketch: its globals (adjustable, stepix,
   speedAdj), the Bendulum-owned fields the sketch reads and writes
   (bias, peakScale, beat duration, run mode), the in-RAM settings
   structure, and the EEPROM contents. -/
structure State where
  adjustable : Bool
  stepix : Nat
  speedAdj : Int
  bBias : Int
  bPeakScale : Int
  bUspb : Int
  bRunMode : RunMode
  settings : Settings
  eeprom : Settings
deriving DecidableEq

/- writeEEPROM of the Escapement sketch: fill the settings structure from
   the Bendulum's current values, mark it with the tag, and write it to
   the EEPROM. -/
def writeEEPROM (s : State) : State :=
  let st : Settings :=
    { id := SETTINGS_TAG, rtcCorrection := s.bBias,
      peakScale := s.bPeakScale, uspb := s.bUspb }
  { s with settings := st, eeprom := st }

/-- Modelled from the spec: the Bendulum library method incrBeatDuration
(not under src/) folds the committed speed adjustment into the stored beat
duration; the claim settled against this model does not depend on the
exact value produced. -/
def incrBeatDuration (s : State) (x : Int) : State :=
  { s with bUspb := s.bUspb + x }

/- Power button of the Escapement sketch: flip adjustable; if going off
   with a pending adjustment, fold it into the beat duration and write the
   settings to EEPROM (Escapement.ino fPower). -/
def fPower (s : State) : State × List DriveCmd :=
  if s.adjustable then
    let s1 :=
      if s.speedAdj ≠ 0 then
        { writeEEPROM (incrBeatDuration s s.speedAdj) with speedAdj := 0 }
      else s
    ({ s1 with adjustable := false }, [])
  else
    ({ s with adjustable := true }, [])

/- A button of the Escapement sketch (byte decrement of stepix). -/
def fA (s : State) : State × List DriveCmd :=
  if s.adjustable then
    let d := (s.stepix + 255) % 256
    ({ s with stepix := if 5 < d then 5 else d }, [])
  else (s, [])

/- B button of the Escapement sketch: cancel the drive and zero the
   pending adjustment. -/
def fB (s : State) : State × List DriveCmd :=
  if s.adjustable then
    ({ s with speedAdj := 0 }, [DriveCmd.cancelDrive])
  else (s, [])

/- C button of the Escapement sketch (byte increment of stepix). -/
def fC (s : State) : State × List DriveCmd :=
  if s.adjustable then
    let u := (s.stepix + 1) % 256
    ({ s with stepix := if 5 < u then 0 else u }, [])
  else (s, [])

/- Up button of the Escapement sketch. -/
def fUp (s : State) : State × List DriveCmd :=
  if s.adjustable then
    ({ s with speedAdj := s.speedAdj + stepSizeAt s.stepix }, [])
  else (s, [])

/- Down button of the Escapement sketch. -/
def fDown (s : State) : State × List DriveCmd :=
  if s.adjustable then
    ({ s with speedAdj := s.speedAdj - stepSizeAt s.stepix }, [])
  else (s, [])

/- Left button of the Escapement sketch. -/
def fLeft (s : State) : State × List DriveCmd :=
  if s.adjustable then
    if stepSizeAt s.stepix ≤ 21474 then
      (s, [DriveCmd.driveMicros (-stepSizeAt s.stepix * 100000)])
    else
      (s, [DriveCmd.driveSec ((-stepSizeAt s.stepix).tdiv 10)])
  else (s, [])

/- Right button of the Escapement sketch. -/
def fRight (s : State) : State × List DriveCmd :=
  if s.adjustable then
    if stepSizeAt s.stepix ≤ 21474 then
      (s, [DriveCmd.driveMicros (stepSizeAt s.stepix * 100000)])
    else
      (s, [DriveCmd.driveSec ((stepSizeAt s.stepix).tdiv 10)])
  else (s, [])

/- Select button of the Escapement sketch: start a scaling-then-
   calibration run and disarm. -/
def fSelect (s : State) : State × List DriveCmd :=
  if s.adjustable then
    ({ s with bRunMode := RunMode.SCALING, adjustable := false }, [])
  else (s, [])

/- Button dispatch of the Escapement sketch's loop. -/
def onButton (s : State) : Button → State × List DriveCmd
| Button.power => fPower s
| Button.a => fA s
| Button.b => fB s
| Button.c => fC s
| Button.up => fUp s
| Button.down => fDown s
| Button.left => fLeft s
| Button.right => fRight s
| Button.select => fSelect s

/- Optional button processing: no keypress leaves the state alone. -/
def onButtonOpt (s : State) : Option Button → State × List DriveCmd
| none => (s, [])
| some btn => onButton s btn

/- One pass of the Escapement sketch's loop.  Inputs from the excluded
   collaborators: the beat duration returned by b.beat(), the run mode the
   Bendulum library is in after the beat, whether the beat was a tick, and
   the decoded button press, if any.  The pass drives the clock by the
   beat, processes the button, and — only on a tick in CALFINISH — writes
   the settings to EEPROM. -/
def loopStep (s : State) (beatMicros : Int) (newMode : RunMode)
    (isTick : Bool) (btn : Option Button) : State × List DriveCmd :=
  let s1 := { s with bRunMode := newMode }
  let bc := onButtonOpt s1 btn
  let s2 := bc.1
  let s3 :=
    if isTick = true ∧ s2.bRunMode = RunMode.CALFINISH then writeEEPROM s2 else s2
  (s3, DriveCmd.driveMicros beatMicros :: bc.2)

end EscapementSketch

namespace EscapementSketch

/- No button handler of the Escapement sketch sets the Bendulum's run
   mode to anything except SCALING (only fSelect touches it). -/
theorem esc_onButton_runMode (s : State) (btn : Button) :
    (onButton s btn).1.bRunMode = s.bRunMode ∨
    (onButton s btn).1.bRunMode = RunMode.SCALING := by
  cases btn <;>
    simp only [onButton, fPower, fA, fB, fC, fUp, fDown, fLeft, fRight, fSelect] <;>
    split_ifs <;> simp [writeEEPROM, incrBeatDuration]

/- The only button handler of the Escapement sketch that can change the
   EEPROM is Power, and only while armed with a pending adjustment. -/
theorem esc_onButton_eeprom (s : State) (btn : Button)
    (h : (onButton s btn).1.eeprom ≠ s.eeprom) :
    btn = Button.power ∧ s.adjustable = true ∧ s.speedAdj ≠ 0 := by
  cases btn <;>
    simp only [onButton, fPower, fA, fB, fC, fUp, fDown, fLeft, fRight, fSelect] at h <;>
    split_ifs at h <;> simp_all [writeEEPROM, incrBeatDuration]

/-- Claim C3: in the Escapement sketch's control loop the EEPROM is
written only by the CALFINISH case of the run-mode switch and by the
explicit ledger commit (Power turning adjustment off with a non-zero
pending adjustment); no other run-mode case and no other button handler
ever changes it. -/
theorem C3_eeprom_written_only_by_calfinish_or_commit
    (s : State) (beatMicros : Int) (newMode : RunMode) (isTick : Bool)
    (btn : Option Button)
    (h : (loopStep s beatMicros newMode isTick btn).1.eeprom ≠ s.eeprom) :
    (isTick = true ∧ newMode = RunMode.CALFINISH) ∨
    (btn = some Button.power ∧ s.adjustable = true ∧ s.speedAdj ≠ 0) := by
  by_cases ht : isTick = true ∧ newMode = RunMode.CALFINISH
  · exact Or.inl ht
  refine Or.inr ?_
  have hfire : ¬(isTick = true ∧
      (onButtonOpt { s with bRunMode := newMode } btn).1.bRunMode = RunMode.CALFINISH) := by
    rintro ⟨htick, hmode⟩
    apply ht
    refine ⟨htick, ?_⟩
    rcases btn with _ | btn
    · simpa [onButtonOpt] using hmode
    · have hm' : (onButton { s with bRunMode := newMode } btn).1.bRunMode =
          RunMode.CALFINISH := by simpa [onButtonOpt] using hmode
      rcases esc_onButton_runMode { s with bRunMode := newMode } btn with hm | hm
      · rw [hm'] at hm
        exact hm.symm
      · rw [hm'] at hm
        exact absurd hm (by decide)
  have h2 : (onButtonOpt { s with bRunMode := newMode } btn).1.eeprom ≠ s.eeprom := by
    intro he
    apply h
    simp only [loopStep]
    rw [if_neg hfire]
    exact he
  rcases btn with _ | btn
  · exact absurd rfl h2
  · have h3 := esc_onButton_eeprom { s with bRunMode := newMode } btn
      (by simpa [onButtonOpt] using h2)
    exact ⟨by rw [h3.1], h3.2.1, h3.2.2⟩

theorem C3_witness :
    (false = true ∧ RunMode.RUNNING = RunMode.CALFINISH) ∨
    (some Button.power = some Button.power ∧ true = true ∧ (5 : Int) ≠ 0) := by
  have h := C3_eeprom_written_only_by_calfinish_or_commit
    { adjustable := true, stepix := 3, speedAdj := 5, bBias := 1, bPeakScale := 2,
      bUspb := 1000000, bRunMode := RunMode.RUNNING,
      settings := { id := 0, rtcCorrection := 0, peakScale := 0, uspb := 0 },
      eeprom := { id := 0, rtcCorrection := 0, peakScale := 0, uspb := 0 } }
    900000 RunMode.RUNNING false (some Button.power) (by decide)
  exact h

end EscapementSketch

namespace RtcCalibrate

/- Modulus of the 32-bit unsigned long arithmetic of the AVR target. -/
def UINT32 : Nat := 4294967296

/- The corrected elapsed time computed by the RTC-calibration sketch's
   loop:  deltaT += ((settings.rtcCorrection * deltaT) + 432000) / 864000.
   deltaT is an unsigned long and rtcCorrection a signed int, so C's usual
   arithmetic conversions promote rtcCorrection to unsigned long (value
   taken modulo 2^32) and the division is an unsigned division. -/
def loopCorrectedDeltaT (rtcCorrection : Int) (deltaT : Nat) : Nat :=
  let corrU : Nat := (rtcCorrection % (UINT32 : Int)).toNat
  let num : Nat := (corrU * (deltaT % UINT32) + 432000) % UINT32
  (deltaT % UINT32 + num / 864000) % UINT32

/-- Spec-side definition (section 4.1 formula) for the refinement
comparison: corrected = deltaT + round-half-up of bias·deltaT/864000,
realized in exact signed integer arithmetic as a floor division of
bias·deltaT + 432000 by 864000. -/
def specCorrectedDeltaT (bias deltaT : Int) : Int :=
  deltaT + Int.fdiv (bias * deltaT + 432000) 864000

/-- Claim C1 (code bug): for a clock-advance interval deltaT = 900000 µs
(which passes the 500000 µs trigger) and bias = -50 tenths of a second per
day, the sketch's unsigned arithmetic drives the clock with 904919 µs — a
correction of +4919 µs from the wrapped-around promotion of the negative
correction — while the specified formula yields 899948 µs (a -52 µs
correction); for the positive bias +50 the two agree at 900052 µs. -/
theorem C1_negative_bias_diverges :
    loopCorrectedDeltaT (-50) 900000 = 904919 ∧
    specCorrectedDeltaT (-50) 900000 = 899948 ∧
    loopCorrectedDeltaT 50 900000 = 900052 ∧
    specCorrectedDeltaT 50 900000 = 900052 ∧
    (904919 : Int) ≠ 899948 := by
  decide

end RtcCalibrate

namespace DumpSketches

/- The five linear-regression accumulators of the dump sketches.  The
   float variables of the sketches are embedded over the rationals; every
   quantity handled in the claims is produced exactly. -/
structure LsqAcc where
  xSum : ℚ
  ySum : ℚ
  xxSum : ℚ
  xySum : ℚ
  count : Nat
deriving DecidableEq

/- One pass of the accumulation loop body shared by both dump sketches. -/
def lsqStep (a : LsqAcc) (p : ℚ × ℚ) : LsqAcc :=
  { xSum := a.xSum + p.1, ySum := a.ySum + p.2,
    xxSum := a.xxSum + p.1 * p.1, xySum := a.xySum + p.1 * p.2,
    count := a.count + 1 }

/- Accumulation over a list of (temperature, duration) points, as the
   loops of the dump sketches do, starting from zeroed sums. -/
def lsqAcc (pts : List (ℚ × ℚ)) : LsqAcc := pts.foldl lsqStep ⟨0, 0, 0, 0, 0⟩

/- Outcome of the v0.30 dump sketch's model computation: either the
   explicit not-enough-data report or a fitted line. -/
inductive FitResult where
| insufficient
| fit (slope yIntercept : ℚ)
deriving DecidableEq

/- The v0.30 dump sketch (src/unnamed/part_001): compute the fit when
   count > 1, otherwise print the not-enough-calibration-data message. -/
def lsqFit (pts : List (ℚ × ℚ)) : FitResult :=
  let a := lsqAcc pts
  if 1 < a.count then
    let slope := ((a.count : ℚ) * a.xySum - a.xSum * a.ySum) /
      ((a.count : ℚ) * a.xxSum - a.xSum * a.xSum)
    FitResult.fit slope ((a.ySum - slope * a.xSum) / (a.count : ℚ))
  else FitResult.insufficient

/- A temperature bucket as the v0.30 dump sketch reads it from EEPROM. -/
structure VBucket where
  uspb : Int
  temp : Int
deriving DecidableEq

/- The v0.30 sketch's point selection: buckets with uspb > 0 contribute
   the pair (temp/256, uspb). -/
def v030Points (bs : List VBucket) : List (ℚ × ℚ) :=
  bs.filterMap fun b =>
    if 0 < b.uspb then some ((b.temp : ℚ) / 256, (b.uspb : ℚ)) else none

/-- Spec-side definition: the sum of the x coordinates of the points. -/
def sumX (pts : List (ℚ × ℚ)) : ℚ := (pts.map Prod.fst).sum

/-- Spec-side definition: the sum of the y coordinates of the points. -/
def sumY (pts : List (ℚ × ℚ)) : ℚ := (pts.map Prod.snd).sum

/-- Spec-side definition: the sum of the squared x coordinates. -/
def sumXX (pts : List (ℚ × ℚ)) : ℚ := (pts.map fun p => p.1 * p.1).sum

/-- Spec-side definition: the sum of the products x·y. -/
def sumXY (pts : List (ℚ × ℚ)) : ℚ := (pts.map fun p => p.1 * p.2).sum

/-- Spec-side definition (section 4.2 of the spec): the ordinary
least-squares slope (n·Σxy − Σx·Σy)/(n·Σx² − (Σx)²). -/
def specSlope (pts : List (ℚ × ℚ)) : ℚ :=
  ((pts.length : ℚ) * sumXY pts - sumX pts * sumY pts) /
  ((pts.length : ℚ) * sumXX pts - sumX pts * sumX pts)

/-- Spec-side definition: the least-squares intercept (Σy − slope·Σx)/n. -/
def specIntercept (pts : List (ℚ × ℚ)) : ℚ :=
  (sumY pts - specSlope pts * sumX pts) / (pts.length : ℚ)

/- The single-pass accumulation computes exactly the list sums. -/
theorem lsqAcc_foldl (pts : List (ℚ × ℚ)) (a : LsqAcc) :
    pts.foldl lsqStep a =
      { xSum := a.xSum + sumX pts, ySum := a.ySum + sumY pts,
        xxSum := a.xxSum + sumXX pts, xySum := a.xySum + sumXY pts,
        count := a.count + pts.length } := by
  induction pts generalizing a with
  | nil => simp [sumX, sumY, sumXX, sumXY]
  | cons p rest ih =>
    simp only [List.foldl_cons, ih, lsqStep, sumX, sumY, sumXX, sumXY,
      List.map_cons, List.sum_cons, List.length_cons, LsqAcc.mk.injEq]
    refine ⟨by ring, by ring, by ring, by ring, by omega⟩

theorem lsqAcc_eq (pts : List (ℚ × ℚ)) :
    lsqAcc pts =
      { xSum := sumX pts, ySum := sumY pts, xxSum := sumXX pts,
        xySum := sumXY pts, count := pts.length } := by
  simpa using lsqAcc_foldl pts ⟨0, 0, 0, 0, 0⟩

/-- Claim C6: the least-squares fit of the v0.30 dump sketch computes
slope = (n·Σxy − Σx·Σy)/(n·Σx² − (Σx)²) and intercept = (Σy − slope·Σx)/n
over the accumulated (temperature, duration) points whenever at least two
are available, and over the points (0,100), (1,110), (2,120) it yields
slope 10 and intercept 100. -/
theorem C6_least_squares_formulas :
    (∀ pts : List (ℚ × ℚ),
      lsqFit pts =
        if 2 ≤ pts.length then FitResult.fit (specSlope pts) (specIntercept pts)
        else FitResult.insufficient) ∧
    lsqFit [((0 : ℚ), (100 : ℚ)), (1, 110), (2, 120)] = FitResult.fit 10 100 := by
  constructor
  · intro pts
    simp only [lsqFit, lsqAcc_eq, specSlope, specIntercept]
    split_ifs with h1 h2 h2
    · rfl
    · omega
    · omega
    · rfl
  · norm_num [lsqFit, lsqAcc, List.foldl, lsqStep]

/- A temperature bucket as the V0.85 DumpEeprom sketch reads it from
   EEPROM: the calibrated duration and the smoothing counter that decides
   whether the bucket is complete. -/
structure EBucket where
  uspb : Int
  curSmoothing : Int
deriving DecidableEq

/- Accumulation loop of the V0.85 DumpEeprom sketch, carrying the bucket
   index i: complete buckets (curSmoothing > TGT_SMOOTHING) contribute
   x = ((TEMP_MIN << 1) + i) << 7 and y = uspb. -/
def v085Acc (tempMin tgtSmoothing : Int) : Nat → List EBucket → LsqAcc → LsqAcc
| _, [], a => a
| i, b :: rest, a =>
  let x : ℚ := (((tempMin * 2 + (i : Int)) * 128 : Int) : ℚ)
  let y : ℚ := (b.uspb : ℚ)
  if tgtSmoothing < b.curSmoothing then
    v085Acc tempMin tgtSmoothing (i + 1) rest
      { xSum := a.xSum + x, ySum := a.ySum + y, xxSum := a.xxSum + x * x,
        xySum := a.xySum + x * y, count := a.count + 1 }
  else v085Acc tempMin tgtSmoothing (i + 1) rest a

/- The V0.85 DumpEeprom sketch's model output: with at least one complete
   bucket it prints an LSQ model, taking slope 0 when only one bucket is
   complete; with none it prints nothing (returns none). -/
def v085Report (tempMin tgtSmoothing : Int) (bs : List EBucket) : Option (ℚ × ℚ) :=
  let a := v085Acc tempMin tgtSmoothing 0 bs ⟨0, 0, 0, 0, 0⟩
  if 1 ≤ a.count then
    let slope : ℚ :=
      if 1 < a.count then
        ((a.count : ℚ) * a.xySum - a.xSum * a.ySum) /
        ((a.count : ℚ) * a.xxSum - a.xSum * a.xSum)
      else 0
    some (slope, (a.ySum - slope * a.xSum) / (a.count : ℚ))
  else none

/-- Claim C5 counterexample: two degenerate inputs on which a dump sketch
presents a confident-looking model instead of the claimed explicit
insufficient-data report.  First, the V0.85 DumpEeprom sketch with
exactly one complete bucket (TEMP_MIN = 5, TGT_SMOOTHING = 16, a single
bucket of duration 860000 whose smoothing counter 17 marks it complete)
prints an LSQ model with slope 0.  Second, the v0.30 dump sketch with two
completed buckets of equal stored raw temperature 256 (durations 100 and
110) accumulates the points (1,100) and (1,110), whose least-squares
denominator n·Σx² − (Σx)² is zero, yet it still takes the fit branch —
in the sketch's float arithmetic the printed model is the 0.0/0.0 result
(NaN) — rather than reporting insufficient data.  The branch taken
depends only on the exact integer count, so it is independent of the
rational embedding of the float sums. -/
theorem C5_counterexample_degenerate_fits :
    ((v085Acc 5 16 0 [{ uspb := 860000, curSmoothing := 17 }] ⟨0, 0, 0, 0, 0⟩).count = 1 ∧
     v085Report 5 16 [{ uspb := 860000, curSmoothing := 17 }] = some (0, 860000)) ∧
    (v030Points [{ uspb := 100, temp := 256 }, { uspb := 110, temp := 256 }] =
        [((1 : ℚ), (100 : ℚ)), (1, 110)] ∧
     (2 : ℚ) * sumXX [((1 : ℚ), (100 : ℚ)), (1, 110)] -
       sumX [((1 : ℚ), (100 : ℚ)), (1, 110)] * sumX [((1 : ℚ), (100 : ℚ)), (1, 110)] = 0 ∧
     lsqFit (v030Points [{ uspb := 100, temp := 256 }, { uspb := 110, temp := 256 }]) ≠
       FitResult.insufficient) := by
  refine ⟨⟨?_, ?_⟩, ?_, ?_, ?_⟩
  · norm_num [v085Acc]
  · norm_num [v085Report, v085Acc]
  · norm_num [v030Points, List.filterMap_cons, List.filterMap_nil]
  · norm_num [sumXX, sumX]
  · have h : lsqFit (v030Points [{ uspb := 100, temp := 256 }, { uspb := 110, temp := 256 }]) =
        FitResult.fit 0 105 := by
      norm_num [lsqFit, lsqAcc, List.foldl, lsqStep, v030Points]
    rw [h]
    simp

/-- Claim C5 as amended: the v0.30 dump sketch reports the explicit
not-enough-calibration-data result exactly when fewer than two points are
available — with two or more points it always presents a computed model,
even when the least-squares denominator is zero (points of equal
temperature), where its float arithmetic prints a NaN model rather than
an insufficient-data report.  The V0.85 DumpEeprom sketch prints no model
at all when no bucket is complete, but when exactly one bucket is
complete it prints an LSQ model with slope 0 (and intercept equal to that
bucket's duration) rather than reporting insufficient data. -/
theorem C5_insufficient_data_amended :
    (∀ pts : List (ℚ × ℚ), pts.length < 2 → lsqFit pts = FitResult.insufficient) ∧
    (∀ pts : List (ℚ × ℚ), 2 ≤ pts.length → lsqFit pts ≠ FitResult.insufficient) ∧
    (∀ tempMin tgtSmoothing : Int, ∀ bs : List EBucket,
      (v085Acc tempMin tgtSmoothing 0 bs ⟨0, 0, 0, 0, 0⟩).count = 0 →
      v085Report tempMin tgtSmoothing bs = none) ∧
    (∀ tempMin tgtSmoothing : Int, ∀ bs : List EBucket,
      (v085Acc tempMin tgtSmoothing 0 bs ⟨0, 0, 0, 0, 0⟩).count = 1 →
      v085Report tempMin tgtSmoothing bs =
        some (0, (v085Acc tempMin tgtSmoothing 0 bs ⟨0, 0, 0, 0, 0⟩).ySum)) := by
  refine ⟨?_, ?_, ?_, ?_⟩
  · intro pts h
    simp only [lsqFit, lsqAcc_eq]
    rw [if_neg (by omega)]
  · intro pts h
    simp only [lsqFit, lsqAcc_eq]
    rw [if_pos (by omega)]
    simp
  · intro tempMin tgtSmoothing bs h
    simp [v085Report, h]
  · intro tempMin tgtSmoothing bs h
    simp [v085Report, h]

theorem C5_amended_witness :
    lsqFit [((3 : ℚ), (4 : ℚ))] = FitResult.insufficient ∧
    lsqFit [((1 : ℚ), (100 : ℚ)), (1, 110)] ≠ FitResult.insufficient ∧
    v085Report 0 0 [] = none ∧
    v085Report 5 16 [{ uspb := 7, curSmoothing := 17 }] = some (0, 7) := by
  refine ⟨C5_insufficient_data_amended.1 [((3 : ℚ), (4 : ℚ))] (by decide),
          C5_insufficient_data_amended.2.1 [((1 : ℚ), (100 : ℚ)), (1, 110)] (by decide),
          C5_insufficient_data_amended.2.2.1 0 0 [] (by decide), ?_⟩
  have h := C5_insufficient_data_amended.2.2.2 5 16
    [{ uspb := 7, curSmoothing := 17 }] (by norm_num [v085Acc])
  rw [h]
  norm_num [v085Acc]

end DumpSketches
